/-
  Verification of the pgpageshell page decoder.

  This file is a shallow embedding of the binary-decoding core of the
  pgpageshell PostgreSQL page inspector (page.go and special.go), together
  with theorems checking the specification's claims about it.

  Modelling conventions:
  - A page buffer is a total function from byte offsets to values; every
    fetch goes through byteAt, which reduces the cell mod 256.
  - The Go code indexes a fixed 8192-byte array.  Guarded readers
    (readU16, readU32, readByte) return none exactly where the Go slice
    expression would be out of range, i.e. where the program would panic
    at run time.  Decoders that can reach such an access are Option-valued
    and propagate the none.
  - The Go local pageSize/specialSize arithmetic uses machine ints, so the
    corresponding model values are Int where a difference can be negative.
-/
import Mathlib

namespace Pgpageshell

/-- PageSize constant in page.go: the fixed 8 KiB page. -/
def PageSize : Nat := 8192

/-- PageHeaderSize constant in page.go. -/
def PageHeaderSize : Nat := 24

/-- ItemIdSize constant in page.go. -/
def ItemIdSize : Nat := 4

/-- HeapTupleHdrSize constant in page.go. -/
def HeapTupleHdrSize : Nat := 23

/-- IndexTupleHdrSize constant in page.go. -/
def IndexTupleHdrSize : Nat := 8

/-- Line pointer flag LP_UNUSED. -/
def LPUnused : Nat := 0

/-- Line pointer flag LP_NORMAL. -/
def LPNormal : Nat := 1

/-- Line pointer flag LP_REDIRECT. -/
def LPRedirect : Nat := 2

/-- Line pointer flag LP_DEAD. -/
def LPDead : Nat := 3

/-- Heap tuple t_infomask bit constants from page.go. -/
def HeapHasNull : Nat := 0x0001

def HeapHasVarWidth : Nat := 0x0002

def HeapHasExternal : Nat := 0x0004

def HeapHasOidOld : Nat := 0x0008

def HeapXmaxKeyShrLock : Nat := 0x0010

def HeapComboCID : Nat := 0x0020

def HeapXmaxExclLock : Nat := 0x0040

def HeapXmaxLockOnly : Nat := 0x0080

def HeapXminCommitted : Nat := 0x0100

def HeapXminInvalid : Nat := 0x0200

def HeapXminFrozen : Nat := 0x0300

def HeapXmaxCommitted : Nat := 0x0400

def HeapXmaxInvalid : Nat := 0x0800

def HeapXmaxIsMulti : Nat := 0x1000

def HeapUpdated : Nat := 0x2000

def HeapMovedOff : Nat := 0x4000

def HeapMovedIn : Nat := 0x8000

/-- Hash page identifier HashPageID in page.go. -/
def HashPageID : Nat := 0xFF80

/-- GiST page identifier GistPageID in page.go. -/
def GistPageID : Nat := 0xFF81

/-- SP-GiST page identifier SPGistPageID in page.go. -/
def SPGistPageID : Nat := 0xFF82

/-- BRIN page-type word BRINPageTypeMeta in page.go. -/
def BRINPageTypeMeta : Nat := 0xF091

/-- BRIN page-type word BRINPageTypeRevmap in page.go. -/
def BRINPageTypeRevmap : Nat := 0xF092

/-- BRIN page-type word BRINPageTypeRegular in page.go. -/
def BRINPageTypeRegular : Nat := 0xF093

/-- A byte fetch from the buffer model: every cell is a byte. -/
def byteAt (d : Nat → Nat) (i : Nat) : Nat := d i % 256

/-- Unguarded little-endian 16-bit fetch (used where the surrounding Go
code has already established that the bytes are inside the page). -/
def leU16 (d : Nat → Nat) (off : Nat) : Nat :=
  byteAt d off + 256 * byteAt d (off + 1)

/-- Unguarded little-endian 32-bit fetch. -/
def leU32 (d : Nat → Nat) (off : Nat) : Nat :=
  byteAt d off + 256 * byteAt d (off + 1) + 65536 * byteAt d (off + 2) +
    16777216 * byteAt d (off + 3)

/-- Go binary.LittleEndian.Uint16(data[off : off+2]) against the 8192-byte
page array: the slice panics when off+2 exceeds 8192, modelled as none. -/
def readU16 (d : Nat → Nat) (off : Nat) : Option Nat :=
  if off + 2 ≤ PageSize then some (leU16 d off) else none

/-- Go binary.LittleEndian.Uint32(data[off : off+4]) against the 8192-byte
page array, none where the slice would panic. -/
def readU32 (d : Nat → Nat) (off : Nat) : Option Nat :=
  if off + 4 ≤ PageSize then some (leU32 d off) else none

/-- Go single-byte index data[off] against the 8192-byte page array, none
where the index would panic. -/
def readByte (d : Nat → Nat) (off : Nat) : Option Nat :=
  if off < PageSize then some (byteAt d off) else none

/-- PageHeader struct from page.go (all fields already masked to their
widths by the little-endian reads that populate them). -/
structure PageHeader where
  LSN : Nat
  Checksum : Nat
  Flags : Nat
  Lower : Nat
  Upper : Nat
  Special : Nat
  PageSizeVer : Nat
  PruneXID : Nat
deriving Repr, DecidableEq

/-- PageHeader.PageSz in page.go: the size byte of pd_pagesize_version. -/
def PageHeader.PageSz (h : PageHeader) : Nat := h.PageSizeVer &&& 0xFF00

/-- The idiom repeated in detectPageType, SpecialSize, SpecialData and
CmdFormat: take h.PageSz() and substitute the constant 8192 when it is
zero.  This is the page size the decoder actually addresses. -/
def PageHeader.effPageSize (h : PageHeader) : Nat :=
  if h.PageSz = 0 then PageSize else h.PageSz

/-- ItemId struct from page.go: a packed 32-bit line pointer. -/
structure ItemId where
  Raw : Nat
deriving Repr, DecidableEq

/-- ItemId.Offset: low 15 bits of the raw word. -/
def ItemId.Offset (lp : ItemId) : Nat := lp.Raw &&& 0x7FFF

/-- ItemId.Flags: the 2 status bits at positions 15 and 16. -/
def ItemId.Flags (lp : ItemId) : Nat := (lp.Raw >>> 15) &&& 0x03

/-- ItemId.Length: the 15 bits at positions 17 to 31. -/
def ItemId.Length (lp : ItemId) : Nat := (lp.Raw >>> 17) &&& 0x7FFF

/-- PageType from page.go. -/
inductive PageType where
  | heap
  | btree
  | hash
  | gist
  | gin
  | spgist
  | brin
  | unknown
deriving Repr, DecidableEq

/-- Page.SpecialSize in page.go; the same expression is the specialSize
local of detectPageType.  Go int subtraction, hence Int-valued. -/
def SpecialSize (h : PageHeader) : Int :=
  (h.effPageSize : Int) - (h.Special : Int)

/-- Body of the specialSize == 8 block of detectPageType, applied to the
16-bit word read at offset 6 of the special region.  When no case matches,
Go control falls out of the block, past the specialSize == 16 block (its
condition being false), to the final return of unknown; the fall-through is
folded into the last else here. -/
def detect8 (w : Nat) : PageType :=
  if w = BRINPageTypeMeta ∨ w = BRINPageTypeRevmap ∨ w = BRINPageTypeRegular then
    PageType.brin
  else if w = SPGistPageID then PageType.spgist
  else if w = 0 ∨ (w &&& 0xFF00 = 0 ∧ w &&& 0x00FF ≠ 0) then PageType.gin
  else PageType.unknown

/-- Body of the specialSize == 16 block of detectPageType; sp is the
absolute byte offset of the special region.  The two reads address
special[14:16] and special[12:14] of the Go slice. -/
def detect16 (d : Nat → Nat) (sp : Nat) : Option PageType :=
  match readU16 d (sp + 14) with
  | none => none
  | some hashID =>
    if hashID = HashPageID then some PageType.hash
    else if hashID = GistPageID then some PageType.gist
    else
      match readU16 d (sp + 12) with
      | none => none
      | some btFlags =>
        if btFlags &&& 0xFE00 = 0 then some PageType.btree else some PageType.unknown

/-- Page.detectPageType in page.go.  The Go code first takes the slice
special := p.Data[h.Special:], which panics when Special exceeds 8192
(third branch, none); the later reads inside the slice are the guarded
readU16 calls. -/
def detectPageType (h : PageHeader) (d : Nat → Nat) : Option PageType :=
  if SpecialSize h = 0 then some PageType.heap
  else if h.effPageSize ≤ h.Special ∨ h.Special < PageHeaderSize then some PageType.unknown
  else if PageSize < h.Special then none
  else if SpecialSize h = 8 then (readU16 d (h.Special + 6)).map detect8
  else if SpecialSize h = 16 then detect16 d h.Special
  else some PageType.unknown

/-- numItems computation of ParsePage (and CmdInfo): Go int division. -/
def numItemsOf (lower : Nat) : Nat :=
  if PageHeaderSize < lower then (lower - PageHeaderSize) / ItemIdSize else 0

/-- Item-id loop of ParsePage: a 4-byte read at 24 + 4*i for each index;
data[off : off+4] panics past the array end, modelled by the guarded read. -/
def readItemIds (d : Nat → Nat) (numItems : Nat) : Option (List ItemId) :=
  (List.range numItems).mapM fun i =>
    (readU32 d (PageHeaderSize + i * ItemIdSize)).map ItemId.mk

/-- Page struct from page.go (the raw buffer itself is carried separately
as the function d; PageNum is presentation-only and omitted). -/
structure Page where
  Header : PageHeader
  Items : List ItemId
  Detected : PageType
deriving Repr, DecidableEq

/-- ParsePage in page.go.  The nine header reads are at fixed offsets
inside the 24-byte header; pd_lsn is composed from the two 32-bit halves
(xlogid shifted into the high half, an addition since xrecoff is below
2^32). -/
def ParsePage (d : Nat → Nat) : Option Page := do
  let xlogid ← readU32 d 0
  let xrecoff ← readU32 d 4
  let checksum ← readU16 d 8
  let flags ← readU16 d 10
  let lower ← readU16 d 12
  let upper ← readU16 d 14
  let special ← readU16 d 16
  let psv ← readU16 d 18
  let pruneXID ← readU32 d 20
  let h : PageHeader :=
    { LSN := xlogid * 4294967296 + xrecoff
      Checksum := checksum
      Flags := flags
      Lower := lower
      Upper := upper
      Special := special
      PageSizeVer := psv
      PruneXID := pruneXID }
  let items ← readItemIds d (numItemsOf lower)
  let pt ← detectPageType h d
  return { Header := h, Items := items, Detected := pt }

/-- Page.SpecialData in page.go: the borrowed slice
p.Data[Special:pageSize], represented by its (start, end) bounds.  Go
returns nil when Special is at or past pageSize (some none) and panics
when pageSize exceeds the 8192-byte array (none). -/
def SpecialData (h : PageHeader) : Option (Option (Nat × Nat)) :=
  if h.effPageSize ≤ h.Special then some none
  else if h.effPageSize ≤ PageSize then some (some (h.Special, h.effPageSize))
  else none

/-- HeapTupleHeader struct from page.go. -/
structure HeapTupleHeader where
  Xmin : Nat
  Xmax : Nat
  Field3 : Nat
  CtidBlock : Nat
  CtidOffset : Nat
  Infomask2 : Nat
  Infomask : Nat
  Hoff : Nat
deriving Repr, DecidableEq

/-- Page.ParseHeapTupleHeader in page.go: d := p.Data[offset:] followed by
nine fixed-offset reads; each slice access past the 8192-byte array
panics, modelled as none.  t_ctid's block number is composed from its two
16-bit halves, high half first. -/
def ParseHeapTupleHeader (d : Nat → Nat) (offset : Nat) : Option HeapTupleHeader := do
  let xmin ← readU32 d offset
  let xmax ← readU32 d (offset + 4)
  let field3 ← readU32 d (offset + 8)
  let biHi ← readU16 d (offset + 12)
  let biLo ← readU16 d (offset + 14)
  let ctidOffset ← readU16 d (offset + 16)
  let infomask2 ← readU16 d (offset + 18)
  let infomask ← readU16 d (offset + 20)
  let hoff ← readByte d (offset + 22)
  return { Xmin := xmin
           Xmax := xmax
           Field3 := field3
           CtidBlock := biHi * 65536 + biLo
           CtidOffset := ctidOffset
           Infomask2 := infomask2
           Infomask := infomask
           Hoff := hoff }

/-- IndexTupleHeader struct from page.go. -/
structure IndexTupleHeader where
  TidBlock : Nat
  TidOffset : Nat
  Info : Nat
deriving Repr, DecidableEq

/-- Page.ParseIndexTupleHeader in page.go. -/
def ParseIndexTupleHeader (d : Nat → Nat) (offset : Nat) : Option IndexTupleHeader := do
  let biHi ← readU16 d offset
  let biLo ← readU16 d (offset + 2)
  let tidOffset ← readU16 d (offset + 4)
  let info ← readU16 d (offset + 6)
  return { TidBlock := biHi * 65536 + biLo
           TidOffset := tidOffset
           Info := info }

/-- Outcome of one iteration of the printHeapTuples loop in special.go:
which guard fires for a line pointer, and whether ParseHeapTupleHeader is
reached.  panic marks a slice-out-of-range crash inside the header parse. -/
inductive HeapItemStep where
  | unused
  | redirect (target : Nat)
  | deadNoStorage
  | noStorage
  | beyondPage
  | panic
  | parsed (t : HeapTupleHeader)
deriving Repr, DecidableEq

/-- Per-item control flow of printHeapTuples in special.go.  A DEAD item
with nonzero length prints a note and then falls through to the shared
no-storage and beyond-page checks, exactly as the Go code does. -/
def printHeapTuplesItem (d : Nat → Nat) (lp : ItemId) : HeapItemStep :=
  if lp.Flags = LPUnused then HeapItemStep.unused
  else if lp.Flags = LPRedirect then HeapItemStep.redirect lp.Offset
  else if lp.Flags = LPDead ∧ lp.Length = 0 then HeapItemStep.deadNoStorage
  else if lp.Length = 0 ∨ lp.Offset = 0 then HeapItemStep.noStorage
  else if PageSize < lp.Offset + lp.Length then HeapItemStep.beyondPage
  else
    match ParseHeapTupleHeader d lp.Offset with
    | none => HeapItemStep.panic
    | some t => HeapItemStep.parsed t

/-- Outcome of one iteration of the printIndexTuples loop in special.go. -/
inductive IndexItemStep where
  | unused
  | redirect (target : Nat)
  | deadNoStorage
  | noStorage
  | beyondPage
  | tooShort
  | panic
  | parsed (t : IndexTupleHeader)
deriving Repr, DecidableEq

/-- Per-item control flow of printIndexTuples in special.go (the loop body;
on a meta page the whole loop is skipped before any item is examined).
tooShort is the guard lp.Length() < IndexTupleHdrSize, which shows raw hex
without parsing a header. -/
def printIndexTuplesItem (d : Nat → Nat) (lp : ItemId) : IndexItemStep :=
  if lp.Flags = LPUnused then IndexItemStep.unused
  else if lp.Flags = LPRedirect then IndexItemStep.redirect lp.Offset
  else if lp.Flags = LPDead ∧ lp.Length = 0 then IndexItemStep.deadNoStorage
  else if lp.Length = 0 ∨ lp.Offset = 0 then IndexItemStep.noStorage
  else if PageSize < lp.Offset + lp.Length then IndexItemStep.beyondPage
  else if lp.Length < IndexTupleHdrSize then IndexItemStep.tooShort
  else
    match ParseIndexTupleHeader d lp.Offset with
    | none => IndexItemStep.panic
    | some t => IndexItemStep.parsed t

/-- HeapTupleHeader.InfomaskFlags in page.go: the sequential appends are
modelled as list concatenation in the same order; the Go switch on
m & 0x0300 becomes the equivalent if chain (its cases are disjoint
constants). -/
def HeapTupleHeader.InfomaskFlags (t : HeapTupleHeader) : List String :=
  (if t.Infomask &&& HeapHasNull ≠ 0 then ["HAS_NULL"] else []) ++
  (if t.Infomask &&& HeapHasVarWidth ≠ 0 then ["HAS_VARWIDTH"] else []) ++
  (if t.Infomask &&& HeapHasExternal ≠ 0 then ["HAS_EXTERNAL"] else []) ++
  (if t.Infomask &&& HeapHasOidOld ≠ 0 then ["HAS_OID_OLD"] else []) ++
  (if t.Infomask &&& HeapXmaxKeyShrLock ≠ 0 then ["XMAX_KEYSHR_LOCK"] else []) ++
  (if t.Infomask &&& HeapComboCID ≠ 0 then ["COMBO_CID"] else []) ++
  (if t.Infomask &&& HeapXmaxExclLock ≠ 0 then ["XMAX_EXCL_LOCK"] else []) ++
  (if t.Infomask &&& HeapXmaxLockOnly ≠ 0 then ["XMAX_LOCK_ONLY"] else []) ++
  (if t.Infomask &&& 0x0300 = HeapXminFrozen then ["XMIN_FROZEN"]
   else if t.Infomask &&& 0x0300 = HeapXminCommitted then ["XMIN_COMMITTED"]
   else if t.Infomask &&& 0x0300 = HeapXminInvalid then ["XMIN_INVALID"]
   else []) ++
  (if t.Infomask &&& HeapXmaxCommitted ≠ 0 then ["XMAX_COMMITTED"] else []) ++
  (if t.Infomask &&& HeapXmaxInvalid ≠ 0 then ["XMAX_INVALID"] else []) ++
  (if t.Infomask &&& HeapXmaxIsMulti ≠ 0 then ["XMAX_IS_MULTI"] else []) ++
  (if t.Infomask &&& HeapUpdated ≠ 0 then ["UPDATED"] else []) ++
  (if t.Infomask &&& HeapMovedOff ≠ 0 then ["MOVED_OFF"] else []) ++
  (if t.Infomask &&& HeapMovedIn ≠ 0 then ["MOVED_IN"] else [])

/-- GISTPageOpaqueData fields decoded by DecodeGiSTSpecial in special.go. -/
structure GISTPageOpaque where
  nsn : Nat
  rightlink : Nat
  flags : Nat
  pageID : Nat
deriving Repr, DecidableEq

/-- DecodeGiSTSpecial in special.go (field extraction; printing elided).
data is the special slice and len its length; the len < 16 guard is the
early return for a short region.  The source reads nsnLo from bytes 0..3
and nsnHi from bytes 4..7, then composes nsn with nsnLo shifted into the
HIGH 32 bits (an addition, as nsnHi is below 2^32). -/
def DecodeGiSTSpecial (data : Nat → Nat) (len : Nat) : Option GISTPageOpaque :=
  if len < 16 then none
  else
    let nsnLo := leU32 data 0
    let nsnHi := leU32 data 4
    some { nsn := nsnLo * 4294967296 + nsnHi
           rightlink := leU32 data 8
           flags := leU16 data 12
           pageID := leU16 data 14 }

/-- The nsn display of DecodeGiSTSpecial: the printf arguments nsn shifted
right 32 bits and nsn masked to the low 32 bits, in that order. -/
def gistNsnRender (g : GISTPageOpaque) : Nat × Nat :=
  (g.nsn >>> 32, g.nsn &&& 0xFFFFFFFF)

/-- The five candidate regions of CmdFormat in special.go, as (start, end)
pairs of Go ints: header, line pointers, free space, tuple area, special
space. -/
def formatRegions (h : PageHeader) : List (Int × Int) :=
  [((0 : Int), (PageHeaderSize : Int)),
   ((PageHeaderSize : Int), (h.Lower : Int)),
   ((h.Lower : Int), (h.Upper : Int)),
   ((h.Upper : Int), (h.Special : Int)),
   ((h.Special : Int), (h.effPageSize : Int))]

/-- The region sizes actually reported by CmdFormat: region() returns
without printing when end - start is not positive. -/
def formatRegionSizes (h : PageHeader) : List Int :=
  ((formatRegions h).map fun r => r.2 - r.1).filter fun s => 0 < s

/-! ### Arithmetic and bitwise helper lemmas -/

theorem byteAt_lt (d : Nat → Nat) (i : Nat) : byteAt d i < 256 :=
  Nat.mod_lt _ (by norm_num)

theorem leU16_lt (d : Nat → Nat) (off : Nat) : leU16 d off < 65536 := by
  have h1 := byteAt_lt d off
  have h2 := byteAt_lt d (off + 1)
  unfold leU16
  omega

theorem leU32_lt (d : Nat → Nat) (off : Nat) : leU32 d off < 4294967296 := by
  have h1 := byteAt_lt d off
  have h2 := byteAt_lt d (off + 1)
  have h3 := byteAt_lt d (off + 2)
  have h4 := byteAt_lt d (off + 3)
  unfold leU32
  omega

theorem and_two_pow_sub_one (a k : Nat) : a &&& (2 ^ k - 1) = a % 2 ^ k := by
  apply Nat.eq_of_testBit_eq
  intro i
  simp [Nat.testBit_and, Nat.testBit_mod_two_pow, Bool.and_comm]

theorem shiftLeft_lor_of_lt (a : Nat) {b n : Nat} (hb : b < 2 ^ n) :
    (a <<< n) ||| b = a * 2 ^ n + b := by
  apply Nat.eq_of_testBit_eq
  intro i
  have hmul : a * 2 ^ n + b = 2 ^ n * a + b := by ring_nf
  rw [hmul, Nat.testBit_or, Nat.testBit_shiftLeft, Nat.testBit_mul_pow_two_add a hb i]
  by_cases h : i < n
  · have hng : ¬ (i ≥ n) := by omega
    simp [h, hng]
  · have hge : i ≥ n := by omega
    have hblt : b < 2 ^ i :=
      lt_of_lt_of_le hb (Nat.pow_le_pow_right (by norm_num) hge)
    simp [h, hge, Nat.testBit_lt_two_pow hblt]

theorem mul256_and_FF00 {k : Nat} (hk : k < 256) : (256 * k) &&& 0xFF00 = 256 * k := by
  apply Nat.eq_of_testBit_eq
  intro i
  rw [Nat.testBit_and]
  have h1 : (256 * k : Nat) = 2 ^ 8 * k := by norm_num
  have h2 : (0xFF00 : Nat) = 2 ^ 8 * 255 := by norm_num
  rw [h1, h2, Nat.testBit_mul_pow_two, Nat.testBit_mul_pow_two]
  by_cases hge : i ≥ 8
  · by_cases hsmall : i - 8 < 8
    · have h255 : (255 : Nat) = 2 ^ 8 - 1 := by norm_num
      rw [h255, Nat.testBit_two_pow_sub_one]
      simp [hge, hsmall]
    · have hpow : (2 : Nat) ^ 8 ≤ 2 ^ (i - 8) :=
        Nat.pow_le_pow_right (by norm_num) (by omega)
      have hk8 : k < 2 ^ 8 := by simpa using hk
      have hkf : k.testBit (i - 8) = false :=
        Nat.testBit_lt_two_pow (lt_of_lt_of_le hk8 hpow)
      simp [hge, hkf]
  · simp [hge]

/-- The condition that selects GIN in the specialSize == 8 block is, for a
16-bit word, exactly that the high byte of the word is zero. -/
theorem gin_cond_iff {w : Nat} (hw : w < 65536) :
    (w = 0 ∨ (w &&& 0xFF00 = 0 ∧ w &&& 0x00FF ≠ 0)) ↔ w &&& 0xFF00 = 0 := by
  have hmod : w &&& 0x00FF = w % 256 := by
    have h255 : (0x00FF : Nat) = 2 ^ 8 - 1 := by norm_num
    rw [h255, and_two_pow_sub_one]
    norm_num
  constructor
  · rintro (rfl | ⟨h1, _⟩)
    · simp
    · exact h1
  · intro h1
    by_cases hz : w = 0
    · exact Or.inl hz
    · refine Or.inr ⟨h1, ?_⟩
      rw [hmod]
      intro hlo
      apply hz
      have hk : w = 256 * (w / 256) := by omega
      have hklt : w / 256 < 256 := by omega
      have := mul256_and_FF00 hklt
      rw [hk, this] at h1
      omega

theorem PageSz_mod_256 (h : PageHeader) : h.PageSz % 256 = 0 := by
  unfold PageHeader.PageSz
  have h1 : h.PageSizeVer &&& 0xFF00 &&& 255 = 0 := by
    have h0 : (0xFF00 &&& 255 : Nat) = 0 := by decide
    rw [Nat.land_assoc, h0]
    simp
  have h2 : h.PageSizeVer &&& 0xFF00 &&& 255 = (h.PageSizeVer &&& 0xFF00) % 256 := by
    have h255 : (255 : Nat) = 2 ^ 8 - 1 := by norm_num
    rw [h255, and_two_pow_sub_one]
    norm_num
  omega

theorem effPageSize_ge_256 (h : PageHeader) : 256 ≤ h.effPageSize := by
  unfold PageHeader.effPageSize
  split_ifs with hz
  · norm_num [PageSize]
  · have := PageSz_mod_256 h
    omega

/-- Neither path of the specialSize == 8 block yields heap. -/
theorem detect8_ne_heap (w : Nat) : detect8 w ≠ PageType.heap := by
  unfold detect8
  split_ifs <;> simp

/-- Neither path of the specialSize == 16 block yields heap. -/
theorem detect16_ne_heap (d : Nat → Nat) (sp : Nat) :
    detect16 d sp ≠ some PageType.heap := by
  unfold detect16
  split
  · simp
  · split_ifs <;> try simp
    split
    · simp
    · split_ifs <;> simp

/-! ### Concrete inputs used by witnesses and counterexamples -/

/-- The all-zero page buffer. -/
def dZero : Nat → Nat := fun _ => 0

/-! ### Claim C7: item-id bit packing is invertible -/

/-- Claim C7: for every 32-bit item-id word, recomposing
(status shifted left by 15) or-ed with offset or-ed with (length shifted
left by 17) from the decoded triple reproduces the raw word bit-exactly. -/
theorem c7_itemid_repack (lp : ItemId) (h32 : lp.Raw < 4294967296) :
    ((lp.Flags <<< 15) ||| lp.Offset) ||| (lp.Length <<< 17) = lp.Raw := by
  unfold ItemId.Flags ItemId.Offset ItemId.Length
  rw [show (0x7FFF : Nat) = 2 ^ 15 - 1 from by norm_num]
  rw [show (0x03 : Nat) = 2 ^ 2 - 1 from by norm_num]
  simp only [and_two_pow_sub_one, Nat.shiftRight_eq_div_pow]
  have hb1 : lp.Raw % 2 ^ 15 < 2 ^ 15 := Nat.mod_lt _ (by norm_num)
  rw [shiftLeft_lor_of_lt _ hb1]
  have ha : lp.Raw / 2 ^ 15 % 2 ^ 2 < 2 ^ 2 := Nat.mod_lt _ (by norm_num)
  have hlt2 : lp.Raw / 2 ^ 15 % 2 ^ 2 * 2 ^ 15 + lp.Raw % 2 ^ 15 < 2 ^ 17 := by
    have e1 : (2 : Nat) ^ 2 = 4 := by norm_num
    have e2 : (2 : Nat) ^ 15 = 32768 := by norm_num
    have e3 : (2 : Nat) ^ 17 = 131072 := by norm_num
    rw [e1, e2] at ha
    rw [e2] at hb1
    rw [e1, e2, e3]
    omega
  rw [Nat.lor_comm, shiftLeft_lor_of_lt _ hlt2]
  have e1 : (2 : Nat) ^ 2 = 4 := by norm_num
  have e2 : (2 : Nat) ^ 15 = 32768 := by norm_num
  have e3 : (2 : Nat) ^ 17 = 131072 := by norm_num
  rw [e1, e2, e3]
  omega

/-- Claim C7 witness at the concrete raw word 0x12345678. -/
theorem c7_witness :
    ((⟨305419896⟩ : ItemId).Raw < 4294967296) ∧
      ((((⟨305419896⟩ : ItemId).Flags <<< 15) ||| (⟨305419896⟩ : ItemId).Offset) |||
        ((⟨305419896⟩ : ItemId).Length <<< 17) = (⟨305419896⟩ : ItemId).Raw) :=
  ⟨by decide, c7_itemid_repack ⟨305419896⟩ (by decide)⟩

/-! ### Claim C8: xmin status flags are mutually exclusive -/

/-- Boolean test for the three xmin status flag names. -/
def isXminName (s : String) : Bool :=
  s == "XMIN_COMMITTED" || s == "XMIN_INVALID" || s == "XMIN_FROZEN"

/-- The list contributed by the switch on m & 0x0300 inside InfomaskFlags. -/
def xminPart (m : Nat) : List String :=
  if m &&& 0x0300 = HeapXminFrozen then ["XMIN_FROZEN"]
  else if m &&& 0x0300 = HeapXminCommitted then ["XMIN_COMMITTED"]
  else if m &&& 0x0300 = HeapXminInvalid then ["XMIN_INVALID"]
  else []

theorem filter_flag_block (c : Prop) [Decidable c] (s : String)
    (hs : isXminName s = false) :
    List.filter isXminName (if c then [s] else []) = [] := by
  split <;> simp [List.filter_cons, hs]

/-- Restricting InfomaskFlags to the three xmin names leaves exactly the
contribution of the switch on m & 0x0300. -/
theorem infomaskFlags_filter_xmin (t : HeapTupleHeader) :
    t.InfomaskFlags.filter isXminName = xminPart t.Infomask := by
  unfold HeapTupleHeader.InfomaskFlags
  simp only [List.filter_append]
  rw [filter_flag_block _ _ (by decide), filter_flag_block _ _ (by decide),
      filter_flag_block _ _ (by decide), filter_flag_block _ _ (by decide),
      filter_flag_block _ _ (by decide), filter_flag_block _ _ (by decide),
      filter_flag_block _ _ (by decide), filter_flag_block _ _ (by decide),
      filter_flag_block _ _ (by decide), filter_flag_block _ _ (by decide),
      filter_flag_block _ _ (by decide), filter_flag_block _ _ (by decide)]
  simp only [List.nil_append, List.append_nil]
  unfold xminPart
  split_ifs <;> decide

theorem mem_iff_mem_xminPart (t : HeapTupleHeader) (s : String)
    (hs : isXminName s = true) :
    s ∈ t.InfomaskFlags ↔ s ∈ xminPart t.Infomask := by
  rw [← infomaskFlags_filter_xmin t]
  simp [List.mem_filter, hs]

/-- Claim C8: for every infomask value, the derived flag-name list contains
at most one of XMIN_COMMITTED, XMIN_INVALID, XMIN_FROZEN, chosen solely
from the two-bit field infomask & 0x0300: 0x0300 gives XMIN_FROZEN, 0x0100
gives XMIN_COMMITTED, 0x0200 gives XMIN_INVALID, and 0x0000 none of them. -/
theorem c8_xmin_status_exclusive (t : HeapTupleHeader) :
    ((t.InfomaskFlags.filter isXminName).length ≤ 1)
    ∧ ("XMIN_FROZEN" ∈ t.InfomaskFlags ↔ t.Infomask &&& 0x0300 = 0x0300)
    ∧ ("XMIN_COMMITTED" ∈ t.InfomaskFlags ↔ t.Infomask &&& 0x0300 = 0x0100)
    ∧ ("XMIN_INVALID" ∈ t.InfomaskFlags ↔ t.Infomask &&& 0x0300 = 0x0200) := by
  refine ⟨?_, ?_, ?_, ?_⟩
  · rw [infomaskFlags_filter_xmin t]
    unfold xminPart
    split_ifs <;> simp
  · rw [mem_iff_mem_xminPart t _ (by decide)]
    unfold xminPart
    simp only [HeapXminFrozen, HeapXminCommitted, HeapXminInvalid]
    split_ifs <;> simp_all
  · rw [mem_iff_mem_xminPart t _ (by decide)]
    unfold xminPart
    simp only [HeapXminFrozen, HeapXminCommitted, HeapXminInvalid]
    split_ifs <;> simp_all
  · rw [mem_iff_mem_xminPart t _ (by decide)]
    unfold xminPart
    simp only [HeapXminFrozen, HeapXminCommitted, HeapXminInvalid]
    split_ifs <;> simp_all

/-! ### Claim C2: bounds reported for NORMAL items -/

/-- A NORMAL line pointer with offset 100 and length 30: it sits below any
realistic pd_upper, yet both decoders parse it. -/
def itLowOffset : ItemId := ⟨3965028⟩

/-- Claim C2 counterexample: a NORMAL item with offset 100, length 30 on a
page whose pd_upper is 8000.  The claim requires the decoder to report the
item as corrupt (offset below upper) and not parse it; printHeapTuples
parses it, since neither tuple decoder compares the offset with pd_upper. -/
theorem c2_counterexample :
    itLowOffset.Flags = LPNormal ∧ itLowOffset.Offset = 100 ∧ (100 : Nat) < 8000 ∧
      printHeapTuplesItem dZero itLowOffset =
        HeapItemStep.parsed
          { Xmin := 0, Xmax := 0, Field3 := 0, CtidBlock := 0,
            CtidOffset := 0, Infomask2 := 0, Infomask := 0, Hoff := 0 } := by
  decide

/-- Claim C2 as amended: for a NORMAL item whose storage extends past the
8192-byte page end, both tuple decoders report the item (no storage or
beyond page) and neither parses a tuple header at its offset.  The
offset-below-upper half of the original claim is not checked by the code. -/
theorem c2_beyond_page_not_dereferenced (d : Nat → Nat) (lp : ItemId)
    (hn : lp.Flags = LPNormal) (hov : PageSize < lp.Offset + lp.Length) :
    (printHeapTuplesItem d lp = HeapItemStep.noStorage
      ∨ printHeapTuplesItem d lp = HeapItemStep.beyondPage)
    ∧ (printIndexTuplesItem d lp = IndexItemStep.noStorage
      ∨ printIndexTuplesItem d lp = IndexItemStep.beyondPage) := by
  have h0 : ¬ (lp.Flags = LPUnused) := by rw [hn]; decide
  have h2 : ¬ (lp.Flags = LPRedirect) := by rw [hn]; decide
  have h3 : ¬ (lp.Flags = LPDead ∧ lp.Length = 0) := by
    rintro ⟨hd, _⟩
    rw [hn] at hd
    exact absurd hd (by decide)
  unfold printHeapTuplesItem printIndexTuplesItem
  rw [if_neg h0, if_neg h2, if_neg h3, if_neg h0, if_neg h2, if_neg h3]
  by_cases hz : lp.Length = 0 ∨ lp.Offset = 0
  · rw [if_pos hz, if_pos hz]
    exact ⟨Or.inl rfl, Or.inl rfl⟩
  · rw [if_neg hz, if_neg hz, if_pos hov, if_pos hov]
    exact ⟨Or.inr rfl, Or.inr rfl⟩

/-- A NORMAL line pointer with offset 8190 and length 3 (extends one byte
past the page end). -/
def itPastEnd : ItemId := ⟨434174⟩

/-- Claim C2 witness: the amended theorem at the concrete item with offset
8190 and length 3. -/
theorem c2_witness :
    (printHeapTuplesItem dZero itPastEnd = HeapItemStep.noStorage
      ∨ printHeapTuplesItem dZero itPastEnd = HeapItemStep.beyondPage)
    ∧ (printIndexTuplesItem dZero itPastEnd = IndexItemStep.noStorage
      ∨ printIndexTuplesItem dZero itPastEnd = IndexItemStep.beyondPage) :=
  c2_beyond_page_not_dereferenced dZero itPastEnd (by decide) (by decide)

/-! ### Claim C10: zero length or zero offset means no storage -/

/-- Claim C10: for every item with status NORMAL, or DEAD with storage
(nonzero length), whose length is zero or whose offset is zero, both the
heap and the index tuple decoders report the item as having no storage and
do not parse bytes at its offset. -/
theorem c10_zero_offset_no_storage (d : Nat → Nat) (lp : ItemId)
    (hflag : lp.Flags = LPNormal ∨ (lp.Flags = LPDead ∧ lp.Length ≠ 0))
    (hz : lp.Length = 0 ∨ lp.Offset = 0) :
    printHeapTuplesItem d lp = HeapItemStep.noStorage
      ∧ printIndexTuplesItem d lp = IndexItemStep.noStorage := by
  have h0 : ¬ (lp.Flags = LPUnused) := by
    rcases hflag with hn | ⟨hd, _⟩
    · rw [hn]; decide
    · rw [hd]; decide
  have h2 : ¬ (lp.Flags = LPRedirect) := by
    rcases hflag with hn | ⟨hd, _⟩
    · rw [hn]; decide
    · rw [hd]; decide
  have h3 : ¬ (lp.Flags = LPDead ∧ lp.Length = 0) := by
    rintro ⟨hd, hl⟩
    rcases hflag with hn | ⟨_, hnz⟩
    · rw [hn] at hd
      exact absurd hd (by decide)
    · exact hnz hl
  unfold printHeapTuplesItem printIndexTuplesItem
  rw [if_neg h0, if_neg h2, if_neg h3, if_pos hz,
      if_neg h0, if_neg h2, if_neg h3, if_pos hz]
  exact ⟨rfl, rfl⟩

/-- A NORMAL line pointer with offset 0 and length 5. -/
def itZeroOffset : ItemId := ⟨688128⟩

/-- Claim C10 witness: the theorem at the concrete NORMAL item with zero
offset and length 5. -/
theorem c10_witness :
    printHeapTuplesItem dZero itZeroOffset = HeapItemStep.noStorage
      ∧ printIndexTuplesItem dZero itZeroOffset = IndexItemStep.noStorage :=
  c10_zero_offset_no_storage dZero itZeroOffset (Or.inl (by decide)) (Or.inr (by decide))

/-! ### Claim C1: every decoder access bounded by the buffer end -/

/-- A page buffer whose header has pd_lower = 8196 (bytes 12 and 13), all
other bytes zero.  ParsePage then computes 2043 item ids and its last
4-byte read spans bytes 8192..8195, past the 8192-byte array. -/
def dLower8196 : Nat → Nat := fun i => if i = 12 then 4 else if i = 13 then 32 else 0

/-- A NORMAL line pointer with offset 8190 and length 2: the storage lies
inside the page, but a 23-byte heap tuple header at 8190 does not. -/
def itHdrPastEnd : ItemId := ⟨303102⟩

/-- A header whose pd_pagesize_version size byte encodes 16384 with
pd_special = 9000: detectPageType accepts the offsets against the declared
page size and then slices p.Data[9000:] out of the 8192-byte array. -/
def hdrPageSize16384 : PageHeader :=
  { LSN := 0, Checksum := 0, Flags := 0, Lower := 0, Upper := 0,
    Special := 9000, PageSizeVer := 0x4000, PruneXID := 0 }

set_option maxRecDepth 10000 in
/-- Claim C1 is violated by the code: three decoding operations index past
the 8192-byte buffer (a Go slice-bounds panic, modelled as none or panic).
The item-id loop with pd_lower = 8196 reads bytes 8192..8195; the
special-region slice with pagesize_version = 0x4000 and special = 9000
starts past the array; the heap tuple header parse of a NORMAL item with
offset 8190 and length 2 passes the offset+length bound yet reads bytes
8190..8212. -/
theorem c1_out_of_bounds_accesses :
    ParsePage dLower8196 = none
    ∧ detectPageType hdrPageSize16384 dZero = none
    ∧ printHeapTuplesItem dZero itHdrPastEnd = HeapItemStep.panic := by
  refine ⟨?_, by decide, by decide⟩
  decide

/-! ### Claim C3: the decoder follows the header's page size -/

/-- A header whose pagesize_version size byte encodes 4096, with
pd_special = 4088. -/
def hdrPageSize4096 : PageHeader :=
  { LSN := 0, Checksum := 0, Flags := 0, Lower := 0, Upper := 0,
    Special := 4088, PageSizeVer := 0x1000, PruneXID := 0 }

/-- Claim C3 counterexample: with pagesize_version encoding 4096 and
special = 4088, the special-region size is 4096 - 4088 = 8, not
8192 - 4088 = 4104, and SpecialData spans bytes 4088..4095: the decoder
follows the header's page size rather than always addressing 8192 bytes. -/
theorem c3_counterexample :
    SpecialSize hdrPageSize4096 ≠ (8192 : Int) - (hdrPageSize4096.Special : Int)
    ∧ SpecialSize hdrPageSize4096 = 8
    ∧ SpecialData hdrPageSize4096 = some (some (4088, 4096)) := by
  decide

/-- Claim C3 as amended: the special-region size (Page.SpecialSize and the
classifier's specialSize local alike) is page_size - special where
page_size is the size byte of pagesize_version when nonzero and 8192
otherwise; it equals 8192 - special precisely when that field is 0 or
encodes 8192. -/
theorem c3_special_size_follows_header (h : PageHeader) :
    SpecialSize h = (h.effPageSize : Int) - (h.Special : Int)
    ∧ (SpecialSize h = (8192 : Int) - (h.Special : Int)
        ↔ h.PageSz = 0 ∨ h.PageSz = 8192) := by
  refine ⟨rfl, ?_⟩
  unfold SpecialSize PageHeader.effPageSize
  split_ifs with hz
  · simp [hz, PageSize]
  · constructor
    · intro he
      right
      have h8 : (h.PageSz : Int) = 8192 := by omega
      exact_mod_cast h8
    · rintro (h0 | h8192)
      · exact absurd h0 hz
      · rw [h8192]
        norm_num

/-! ### Claim C9: format region sizes sum to the page size -/

theorem sum_filter_pos_of_nonneg (l : List Int) (hall : ∀ x ∈ l, 0 ≤ x) :
    (l.filter fun s => 0 < s).sum = l.sum := by
  induction l with
  | nil => simp
  | cons a t ih =>
    have ha := hall a (List.mem_cons_self a t)
    have ht : ∀ x ∈ t, 0 ≤ x := fun x hx => hall x (List.mem_cons_of_mem a hx)
    rw [List.filter_cons]
    by_cases hpos : (0 : Int) < a
    · simp [hpos, ih ht]
    · have ha0 : a = 0 := le_antisymm (not_lt.mp hpos) ha
      simp [hpos, ha0, ih ht]

/-- A malformed header: pd_upper below pd_lower. -/
def hdrNonMonotone : PageHeader :=
  { LSN := 0, Checksum := 0, Flags := 0, Lower := 100, Upper := 50,
    Special := 8192, PageSizeVer := 0, PruneXID := 0 }

/-- Claim C9 counterexample: with lower = 100 and upper = 50 the reported
region sizes are 24, 76 and 8142, summing to 8242 rather than the page
size 8192: the negative free-space region is skipped but the tuple-area
start does not move, so the telescoping sum breaks. -/
theorem c9_counterexample :
    formatRegionSizes hdrNonMonotone = [24, 76, 8142]
    ∧ (formatRegionSizes hdrNonMonotone).sum = 8242
    ∧ hdrNonMonotone.effPageSize = 8192 := by
  decide

/-- Claim C9 as amended: for every page whose header offsets are monotone
(24 up to lower, upper, special, page size in order), the region sizes
reported by the format view sum to the page size. -/
theorem c9_region_sizes_sum (h : PageHeader)
    (h1 : PageHeaderSize ≤ h.Lower) (h2 : h.Lower ≤ h.Upper)
    (h3 : h.Upper ≤ h.Special) (h4 : h.Special ≤ h.effPageSize) :
    (formatRegionSizes h).sum = (h.effPageSize : Int) := by
  unfold formatRegionSizes formatRegions
  rw [sum_filter_pos_of_nonneg]
  · simp only [List.map_cons, List.map_nil, List.sum_cons, List.sum_nil,
      PageHeaderSize]
    simp only [PageHeaderSize] at h1
    omega
  · intro x hx
    simp only [List.map_cons, List.map_nil, List.mem_cons,
      List.not_mem_nil, or_false, PageHeaderSize] at hx
    simp only [PageHeaderSize] at h1
    rcases hx with rfl | rfl | rfl | rfl | rfl <;> omega

/-- A well-formed heap-like header for the witness. -/
def hdrMonotone : PageHeader :=
  { LSN := 0, Checksum := 0, Flags := 0, Lower := 28, Upper := 8000,
    Special := 8184, PageSizeVer := 0, PruneXID := 0 }

/-- Claim C9 witness: the amended sum theorem at a concrete monotone
header. -/
theorem c9_witness :
    (formatRegionSizes hdrMonotone).sum = (hdrMonotone.effPageSize : Int) :=
  c9_region_sizes_sum hdrMonotone (by decide) (by decide) (by decide) (by decide)

/-! ### Claim C4: heap classification and invalid offsets -/

/-- Claim C4: the classifier returns heap exactly when the special-region
size is zero; and for every page with nonzero special size whose special
offset is at or past the page size, or below 24, it returns unknown (the
heap test precedes the invalid-offset rejection). -/
theorem c4_heap_iff_and_invalid_unknown (h : PageHeader) (d : Nat → Nat) :
    (detectPageType h d = some PageType.heap ↔ SpecialSize h = 0)
    ∧ (SpecialSize h ≠ 0 →
        (h.effPageSize ≤ h.Special ∨ h.Special < PageHeaderSize) →
        detectPageType h d = some PageType.unknown) := by
  constructor
  · constructor
    · intro hd
      by_contra hne
      unfold detectPageType at hd
      rw [if_neg hne] at hd
      split_ifs at hd with hc2 hc3 hc4 hc5
      · simp at hd
      · simp only [Option.map_eq_some'] at hd
        obtain ⟨w, _, hw⟩ := hd
        exact absurd hw (detect8_ne_heap w)
      · exact absurd hd (detect16_ne_heap d h.Special)
      · simp at hd
    · intro h0
      unfold detectPageType
      rw [if_pos h0]
  · intro hne hcond
    unfold detectPageType
    rw [if_neg hne, if_pos hcond]

/-- The all-zero header: special-region size 8192 (nonzero) with special
offset 0, below the 24-byte header. -/
def hdrZero : PageHeader :=
  { LSN := 0, Checksum := 0, Flags := 0, Lower := 0, Upper := 0,
    Special := 0, PageSizeVer := 0, PruneXID := 0 }

/-- Claim C4 witness: at the all-zero header the nonzero-size and
invalid-offset hypotheses hold concretely and the classifier returns
unknown. -/
theorem c4_witness : detectPageType hdrZero dZero = some PageType.unknown :=
  (c4_heap_iff_and_invalid_unknown hdrZero dZero).2 (by decide) (Or.inr (by decide))

/-! ### Claim C5: the 8-byte special-region decision ladder -/

/-- Claim C5: for every page whose special-region size is 8 (its 8-byte
special region then lying inside the 8192-byte buffer), the classifier
returns brin iff the final 16-bit little-endian word is 0xF091, 0xF092 or
0xF093; otherwise spgist iff that word is 0xFF82; otherwise gin iff the
word's high byte is zero; otherwise unknown - tested in exactly that
order. -/
theorem c5_eight_byte_ladder (h : PageHeader) (d : Nat → Nat)
    (hs : SpecialSize h = 8) (hb : h.Special + 8 ≤ PageSize) :
    detectPageType h d = some
      (if leU16 d (h.Special + 6) = 0xF091 ∨ leU16 d (h.Special + 6) = 0xF092
          ∨ leU16 d (h.Special + 6) = 0xF093 then PageType.brin
       else if leU16 d (h.Special + 6) = 0xFF82 then PageType.spgist
       else if leU16 d (h.Special + 6) &&& 0xFF00 = 0 then PageType.gin
       else PageType.unknown) := by
  have h256 := effPageSize_ge_256 h
  have he : h.effPageSize = h.Special + 8 := by
    unfold SpecialSize at hs
    omega
  have hne0 : ¬ (SpecialSize h = 0) := by
    rw [hs]
    norm_num
  have hc2 : ¬ (h.effPageSize ≤ h.Special ∨ h.Special < PageHeaderSize) := by
    simp only [PageHeaderSize]
    omega
  have hc3 : ¬ (PageSize < h.Special) := by
    simp only [PageSize] at hb ⊢
    omega
  unfold detectPageType
  rw [if_neg hne0, if_neg hc2, if_neg hc3, if_pos hs]
  have hsome : readU16 d (h.Special + 6) = some (leU16 d (h.Special + 6)) := by
    unfold readU16
    rw [if_pos (by simp only [PageSize] at hb ⊢; omega)]
  rw [hsome]
  simp only [Option.map_some', Option.some.injEq]
  have hgin := gin_cond_iff (leU16_lt d (h.Special + 6))
  unfold detect8 BRINPageTypeMeta BRINPageTypeRevmap BRINPageTypeRegular SPGistPageID
  by_cases h1 : leU16 d (h.Special + 6) = 0xF091 ∨ leU16 d (h.Special + 6) = 0xF092
      ∨ leU16 d (h.Special + 6) = 0xF093
  · rw [if_pos h1, if_pos h1]
  · rw [if_neg h1, if_neg h1]
    by_cases h2 : leU16 d (h.Special + 6) = 0xFF82
    · rw [if_pos h2, if_pos h2]
    · rw [if_neg h2, if_neg h2]
      by_cases h3 : leU16 d (h.Special + 6) &&& 0xFF00 = 0
      · rw [if_pos (hgin.mpr h3), if_pos h3]
      · rw [if_neg (fun hc => h3 (hgin.mp hc)), if_neg h3]

/-- A header with special = 8184 and default page size: special-region
size 8. -/
def hdrSpecial8184 : PageHeader :=
  { LSN := 0, Checksum := 0, Flags := 0, Lower := 0, Upper := 0,
    Special := 8184, PageSizeVer := 0, PruneXID := 0 }

/-- Bytes 8190..8191 hold 0xF091 little-endian; all other bytes zero. -/
def dBrinWord : Nat → Nat :=
  fun i => if i = 8190 then 0x91 else if i = 8191 then 0xF0 else 0

/-- Claim C5 witness: at special = 8184 with final word 0xF091 the ladder
selects brin. -/
theorem c5_witness : detectPageType hdrSpecial8184 dBrinWord = some PageType.brin := by
  have hl := c5_eight_byte_ladder hdrSpecial8184 dBrinWord (by decide) (by decide)
  rw [hl]
  decide

/-! ### Claim C6: GiST nsn word order -/

/-- GiST special bytes whose first 32-bit word is 1 and second is 2. -/
def dGistWords : Nat → Nat := fun i => if i = 0 then 1 else if i = 4 then 2 else 0

/-- Claim C6 counterexample: on a region whose first stored word is 1 and
second is 2, the decoder yields nsn = 0x100000002 (first word in the HIGH
half), while the claimed composition (first word as low half, second as
high half) would give 0x200000001. -/
theorem c6_counterexample :
    (DecodeGiSTSpecial dGistWords 16).map GISTPageOpaque.nsn = some 4294967298
    ∧ leU32 dGistWords 4 * 4294967296 + leU32 dGistWords 0 = 8589934593
    ∧ (4294967298 : Nat) ≠ 8589934593 := by
  decide

/-- Claim C6 as amended: for every GiST special region of at least 16
bytes, the 64-bit nsn is composed with the FIRST stored 32-bit
little-endian word as the high half and the second stored word as the low
half, and is rendered as high then low, i.e. first word then second
word. -/
theorem c6_nsn_first_word_high (data : Nat → Nat) (len : Nat) (hlen : 16 ≤ len) :
    DecodeGiSTSpecial data len =
      some { nsn := leU32 data 0 * 4294967296 + leU32 data 4
             rightlink := leU32 data 8
             flags := leU16 data 12
             pageID := leU16 data 14 }
    ∧ (DecodeGiSTSpecial data len).map gistNsnRender
        = some (leU32 data 0, leU32 data 4) := by
  have hdec : DecodeGiSTSpecial data len =
      some { nsn := leU32 data 0 * 4294967296 + leU32 data 4
             rightlink := leU32 data 8
             flags := leU16 data 12
             pageID := leU16 data 14 } := by
    unfold DecodeGiSTSpecial
    rw [if_neg (by omega)]
  refine ⟨hdec, ?_⟩
  rw [hdec]
  simp only [Option.map_some', Option.some.injEq]
  unfold gistNsnRender
  have hb := leU32_lt data 4
  have hhi : (leU32 data 0 * 4294967296 + leU32 data 4) >>> 32 = leU32 data 0 := by
    rw [Nat.shiftRight_eq_div_pow]
    rw [show (2 : Nat) ^ 32 = 4294967296 from by norm_num]
    omega
  have hlo : (leU32 data 0 * 4294967296 + leU32 data 4) &&& 0xFFFFFFFF
      = leU32 data 4 := by
    rw [show (0xFFFFFFFF : Nat) = 2 ^ 32 - 1 from by norm_num, and_two_pow_sub_one]
    rw [show (2 : Nat) ^ 32 = 4294967296 from by norm_num]
    omega
  simp [hhi, hlo]

/-- Claim C6 witness: the amended theorem at the concrete region whose
stored words are 1 and 2. -/
theorem c6_witness :
    DecodeGiSTSpecial dGistWords 16 =
      some { nsn := leU32 dGistWords 0 * 4294967296 + leU32 dGistWords 4
             rightlink := leU32 dGistWords 8
             flags := leU16 dGistWords 12
             pageID := leU16 dGistWords 14 }
    ∧ (DecodeGiSTSpecial dGistWords 16).map gistNsnRender
        = some (leU32 dGistWords 0, leU32 dGistWords 4) :=
  c6_nsn_first_word_high dGistWords 16 (by norm_num)

end Pgpageshell
